import Mathlib

/-!
Shallow embedding of the `gemini-url-context-tool` repository
(`src/gemini_url_context_tool/`): the core client's response parsing and
validation (`core/client.py`), the output/input utilities (`utils.py`) and
the `query` subcommand's control flow (`commands/query_commands.py`),
together with proofs of the specification's claims about them.

Modelling conventions:
* Python attributes that the source reads defensively (`hasattr` /
  `getattr` with a default, or a truthiness test) are modelled as `Option`
  fields: `none` stands for an attribute that is missing (or `None`/falsy,
  when the source treats the two alike), so the `getattr` default applies.
* Python dictionaries built by the source are modelled as association
  lists (`List (String × JsonValue)`) preserving insertion order, with
  `JsonValue.null` standing for a Python `None` value stored under a key.
* Python exceptions are modelled as `Except`/tagged outcomes; `sys.exit(1)`
  and the point of the single outbound network call are modelled as
  explicit constructors of small outcome types.
-/

namespace GeminiTool

/-- JSON-compatible values, as produced by the client's parsing and consumed
by `format_output`/`json.dumps`. Objects are ordered association lists,
mirroring Python dict insertion order. -/
inductive JsonValue where
  | null : JsonValue
  | bool : Bool → JsonValue
  | num : Int → JsonValue
  | str : String → JsonValue
  | arr : List JsonValue → JsonValue
  | obj : List (String × JsonValue) → JsonValue

/-- A Python string attribute that may be absent/None, rendered into JSON:
`None` becomes `null` (as `json.dumps` renders it). -/
def optJson : Option String → JsonValue
  | some s => JsonValue.str s
  | none => JsonValue.null

/-- An optional integer attribute rendered into JSON. -/
def optIntJson : Option Int → JsonValue
  | some n => JsonValue.num n
  | none => JsonValue.null

/-- The ASCII whitespace characters stripped by Python's `str.strip()`
(the repository only ever strips prompt text, for which these suffice). -/
def isPyWhitespace (c : Char) : Bool :=
  c = ' ' || c = '\t' || c = '\n' || c = '\x0d' || c = '\x0b' || c = '\x0c'

/-- Python's `str.strip()` on the underlying character list: drop leading
and trailing whitespace. -/
def pyStripList (l : List Char) : List Char :=
  ((l.dropWhile isPyWhitespace).reverse.dropWhile isPyWhitespace).reverse

/-- Python's `str.strip()`. -/
def pyStrip (s : String) : String :=
  String.mk (pyStripList s.toList)

/-- Metadata about one URL retrieved during a query
(`client.py`, dataclass `UrlMetadata`). -/
structure UrlMetadata where
  retrieved_url : String
  url_retrieval_status : String
deriving DecidableEq

/-- Result of a Gemini query (`client.py`, dataclass `QueryResult`).
`grounding_metadata` is the open `dict[str, Any]`, modelled as an ordered
association list. -/
structure QueryResult where
  response_text : String
  url_context_metadata : Option (List UrlMetadata) := none
  grounding_metadata : Option (List (String × JsonValue)) := none

/-- One content part of a response candidate; `text` is `none` when the part
has no text attribute or its text is `None` (the source skips it either way:
`hasattr(part, "text") and part.text is not None`). -/
structure Part where
  text : Option String
deriving DecidableEq

/-- A candidate's content: an optional list of parts (`candidate.content.parts`,
guarded by truthiness in the source, so `none` also models an empty/None value). -/
structure Content where
  parts : Option (List Part)
deriving DecidableEq

/-- One entry of the response's URL-context metadata
(`url_context_metadata.url_metadata[i]`); fields are `none` when the
attribute is absent, so the `getattr` defaults apply. -/
structure UrlMetadataEntry where
  retrieved_url : Option String
  url_retrieval_status : Option String
deriving DecidableEq

/-- The first candidate's URL-context metadata substructure. -/
structure UrlContextMetadata where
  url_metadata : Option (List UrlMetadataEntry)
deriving DecidableEq

/-- The nested web reference a grounding chunk may carry (`chunk.web`). -/
structure Web where
  uri : Option String
  title : Option String
deriving DecidableEq

/-- One grounding chunk of the response. `web = none` models a chunk whose
`web` attribute is missing or falsy; `uri = none` models a chunk without a
direct `uri` attribute (`hasattr(chunk, "uri")` false). -/
structure GroundingChunk where
  web : Option Web
  uri : Option String
  title : Option String
deriving DecidableEq

/-- A grounding support's segment (`support.segment`). -/
structure Segment where
  start_index : Option Int
  end_index : Option Int
  text : Option String
deriving DecidableEq

/-- One grounding support entry of the response. -/
structure GroundingSupport where
  segment : Option Segment
  grounding_chunk_indices : Option (List Int)
deriving DecidableEq

/-- The first candidate's grounding metadata substructure, fields read with
`getattr(…, default=[])` in the source. -/
structure GroundingMetadata where
  web_search_queries : Option (List String)
  grounding_chunks : Option (List GroundingChunk)
  grounding_supports : Option (List GroundingSupport)
deriving DecidableEq

/-- One response candidate. -/
structure Candidate where
  content : Option Content := none
  url_context_metadata : Option UrlContextMetadata := none
  grounding_metadata : Option GroundingMetadata := none
deriving DecidableEq

/-- The raw response of `client.models.generate_content`; `candidates` is
`none` when absent/None (the source tests truthiness and length). -/
structure Response where
  candidates : Option (List Candidate)
deriving DecidableEq

/-- Errors raised by the core client (`client.py` exception hierarchy:
`MissingApiKeyError`, `QueryError`, and `ValueError` for invalid input). -/
inductive ClientError where
  | missingApiKey : String → ClientError
  | queryError : String → ClientError
  | invalidInput : String → ClientError
deriving DecidableEq

/-- A successfully constructed client: bound key and fixed model identifier
(`self.model = "gemini-2.5-flash"`). -/
structure GeminiClientState where
  api_key : String
  model : String
deriving DecidableEq

/-- The message of `MissingApiKeyError` in `GeminiClient.__init__`. -/
def missingApiKeyMessage : String :=
  "GEMINI_API_KEY environment variable is required.\n" ++
  "Set it with: export GEMINI_API_KEY='your-api-key'\n" ++
  "Get an API key from: https://aistudio.google.com/app/apikey"

/-- Construction of the client (`GeminiClient.__init__`): `api_key` is the
optional explicit credential, `env_api_key` the value of the
`GEMINI_API_KEY` environment variable (`none` when unset). A `None`
credential falls back to the environment; a falsy resulting key (missing or
empty) raises `MissingApiKeyError` before the network client is created. -/
def GeminiClient.init (api_key : Option String) (env_api_key : Option String) :
    Except ClientError GeminiClientState :=
  let key := match api_key with
    | none => env_api_key
    | some k => some k
  match key with
  | none => Except.error (ClientError.missingApiKey missingApiKeyMessage)
  | some k =>
    if k = "" then Except.error (ClientError.missingApiKey missingApiKeyMessage)
    else Except.ok ⟨k, "gemini-2.5-flash"⟩

/-- The two tool capabilities the client can attach to a request
(`types.Tool(url_context=…)`, `types.Tool(google_search=…)`). -/
inductive Tool where
  | urlContext : Tool
  | googleSearch : Tool
deriving DecidableEq

/-- What `GeminiClient.query` does before/at the single network call: either
it raises `ValueError` on an invalid prompt, or it reaches
`generate_content` with the configured tool list (`sendRequest` marks the
point of the one outbound network call). -/
inductive QueryStep where
  | raiseInvalidInput : String → QueryStep
  | sendRequest : List Tool → QueryStep
deriving DecidableEq

/-- The `ValueError` message of `GeminiClient.query` for an empty prompt. -/
def queryPromptEmptyMessage : String :=
  "Prompt cannot be empty.\n" ++
  "Provide a prompt as argument:\n" ++
  "  gemini-url-context-tool query 'your prompt here'\n" ++
  "Or read from stdin:\n" ++
  "  echo 'your prompt' | gemini-url-context-tool query --stdin"

/-- Python truthiness of an optional string (`not prompt`): `None` and the
empty string are falsy. -/
def pyFalsyOptStr : Option String → Bool
  | none => true
  | some s => s == ""

/-- The validation and request-construction phase of `GeminiClient.query`
(`client.py` lines 98–127): `if not prompt or not prompt.strip(): raise
ValueError(…)`, then the tools list is `[url_context]` or
`[url_context, google_search]` depending on `enable_search`, and the single
`generate_content` call is issued. -/
def GeminiClient.queryRequest (prompt : Option String) (enable_search : Bool) : QueryStep :=
  if pyFalsyOptStr prompt || pyStrip (prompt.getD "") == "" then
    QueryStep.raiseInvalidInput queryPromptEmptyMessage
  else if enable_search then
    QueryStep.sendRequest [Tool.urlContext, Tool.googleSearch]
  else
    QueryStep.sendRequest [Tool.urlContext]

/-- Response text extraction (`client.py` lines 136–144): concatenate the
text of every part of the first candidate that carries a non-None text,
defaulting to the empty string at every missing level. -/
def extractResponseText (r : Response) : String :=
  match r.candidates with
  | some (candidate :: _) =>
    match candidate.content with
    | some content =>
      match content.parts with
      | some parts =>
        if parts = [] then ""
        else String.join (parts.filterMap (fun part => part.text))
      | none => ""
    | none => ""
  | _ => ""

/-- URL-context metadata extraction (`client.py` lines 146–165): for each
entry of the first candidate's `url_context_metadata.url_metadata`, take
`getattr(url_meta, "retrieved_url", "")` and
`getattr(url_meta, "url_retrieval_status", "UNKNOWN")`; stay `none` when the
substructure or the entry list is absent or empty. -/
def extractUrlContextMetadata (r : Response) : Option (List UrlMetadata) :=
  match r.candidates with
  | some (candidate :: _) =>
    match candidate.url_context_metadata with
    | some ucm =>
      match ucm.url_metadata with
      | some entries =>
        if entries = [] then none
        else some (entries.map (fun e =>
          ⟨e.retrieved_url.getD "", e.url_retrieval_status.getD "UNKNOWN"⟩))
      | none => none
    | none => none
  | _ => none

/-- Per-chunk extraction (`client.py` lines 187–195): a chunk with a truthy
nested `web` reference yields an object with `uri` and `title` taken from it
(`getattr(…, None)`, so a missing field becomes `null`); otherwise a chunk
with a direct `uri` attribute yields that `uri` and its optional `title`;
otherwise the empty object. -/
def chunkToDict (chunk : GroundingChunk) : JsonValue :=
  match chunk.web with
  | some w =>
    JsonValue.obj [("uri", optJson w.uri), ("title", optJson w.title)]
  | none =>
    match chunk.uri with
    | some u => JsonValue.obj [("uri", JsonValue.str u), ("title", optJson chunk.title)]
    | none => JsonValue.obj []

/-- The `for chunk in chunks: chunks_list.append(…)` loop of the source,
as a left fold appending each chunk's object. -/
def buildChunksList (chunks : List GroundingChunk) : List JsonValue :=
  chunks.foldl (fun acc chunk => acc ++ [chunkToDict chunk]) []

/-- Per-support extraction (`client.py` lines 203–217): a support with a
truthy segment yields an object with the segment's `start_index`,
`end_index`, `text` (default empty string) and the support's
`grounding_chunk_indices` (default empty list); a support without a segment
is skipped. -/
def supportToDict (support : GroundingSupport) : Option JsonValue :=
  match support.segment with
  | some seg =>
    some (JsonValue.obj
      [("segment", JsonValue.obj
          [("start_index", optIntJson seg.start_index),
           ("end_index", optIntJson seg.end_index),
           ("text", JsonValue.str (seg.text.getD ""))]),
       ("grounding_chunk_indices",
        JsonValue.arr ((support.grounding_chunk_indices.getD []).map JsonValue.num))])
  | none => none

/-- The `for support in supports` loop of the source, appending only the
supports that carry a segment. -/
def buildSupportsList (supports : List GroundingSupport) : List JsonValue :=
  supports.foldl (fun acc support =>
    match supportToDict support with
    | some j => acc ++ [j]
    | none => acc) []

/-- The final normalization of the grounding dict (`client.py` lines
222–223): `if not grounding_dict: grounding_dict = None` — an empty dict
becomes `None`. -/
def normalizeEmptyDict (d : List (String × JsonValue)) : Option (List (String × JsonValue)) :=
  if d.isEmpty then none else some d

/-- Grounding-dict construction (`client.py` lines 176–223): starting from
an empty dict, add `web_search_queries`, `grounding_chunks` and
`grounding_supports` when their extractions are non-empty (each guarded by
Python truthiness), then normalize an empty dict to `None`. -/
def extractGroundingDict (gm : GroundingMetadata) : Option (List (String × JsonValue)) :=
  let d0 : List (String × JsonValue) := []
  let queries := gm.web_search_queries.getD []
  let d1 := if queries = [] then d0
    else d0 ++ [("web_search_queries", JsonValue.arr (queries.map JsonValue.str))]
  let chunks := gm.grounding_chunks.getD []
  let d2 := if chunks = [] then d1
    else
      let chunks_list := buildChunksList chunks
      if chunks_list.isEmpty then d1
      else d1 ++ [("grounding_chunks", JsonValue.arr chunks_list)]
  let supports := gm.grounding_supports.getD []
  let d3 := if supports = [] then d2
    else
      let supports_list := buildSupportsList supports
      if supports_list.isEmpty then d2
      else d2 ++ [("grounding_supports", JsonValue.arr supports_list)]
  normalizeEmptyDict d3

/-- Grounding extraction over the whole response: only the first candidate's
`grounding_metadata` substructure is inspected. -/
def extractGroundingMetadata (r : Response) : Option (List (String × JsonValue)) :=
  match r.candidates with
  | some (candidate :: _) =>
    match candidate.grounding_metadata with
    | some gm => extractGroundingDict gm
    | none => none
  | _ => none

/-- Response parsing of `GeminiClient.query` (`client.py` lines 135–229):
assemble the `QueryResult`; grounding metadata is extracted only when
`verbose and enable_search`. -/
def parseResponse (r : Response) (enable_search : Bool) (verbose : Bool) : QueryResult :=
  { response_text := extractResponseText r
    url_context_metadata := extractUrlContextMetadata r
    grounding_metadata :=
      if verbose && enable_search then extractGroundingMetadata r else none }

/-- Two-space indentation string of `json.dumps(…, indent=2)`. -/
def spaces (n : Nat) : String :=
  String.mk (List.replicate n ' ')

/-- Escaping of one character inside a JSON string, as `json.dumps` does for
the characters this repository's data can contain. -/
def escapeJsonChar (c : Char) : String :=
  if c = '\"' then "\\\""
  else if c = '\\' then "\\\\"
  else if c = '\n' then "\\n"
  else if c = '\t' then "\\t"
  else if c = '\x0d' then "\\r"
  else String.singleton c

/-- Escaping of a JSON string body. -/
def escapeJsonString (s : String) : String :=
  String.join (s.toList.map escapeJsonChar)

mutual

/-- Serialization of a JSON value in the style of `json.dumps(obj, indent=2)`,
with `indent` the current indentation width. -/
def jsonSerialize (v : JsonValue) (indent : Nat) : String :=
  match v with
  | JsonValue.null => "null"
  | JsonValue.bool b => if b then "true" else "false"
  | JsonValue.num n => toString n
  | JsonValue.str s => "\"" ++ escapeJsonString s ++ "\""
  | JsonValue.arr xs =>
    match xs with
    | [] => "[]"
    | _ => "[\n" ++ jsonSerializeItems xs (indent + 2) ++ "\n" ++ spaces indent ++ "]"
  | JsonValue.obj fs =>
    match fs with
    | [] => "\x7b\x7d"
    | _ => "\x7b\n" ++ jsonSerializeFields fs (indent + 2) ++ "\n" ++ spaces indent ++ "\x7d"

/-- Serialization of array items, one per line, comma-separated. -/
def jsonSerializeItems (xs : List JsonValue) (indent : Nat) : String :=
  match xs with
  | [] => ""
  | [x] => spaces indent ++ jsonSerialize x indent
  | x :: rest =>
    spaces indent ++ jsonSerialize x indent ++ ",\n" ++ jsonSerializeItems rest indent

/-- Serialization of object fields, one per line, comma-separated. -/
def jsonSerializeFields (fs : List (String × JsonValue)) (indent : Nat) : String :=
  match fs with
  | [] => ""
  | [(k, v)] =>
    spaces indent ++ "\"" ++ escapeJsonString k ++ "\": " ++ jsonSerialize v indent
  | (k, v) :: rest =>
    spaces indent ++ "\"" ++ escapeJsonString k ++ "\": " ++ jsonSerialize v indent ++
      ",\n" ++ jsonSerializeFields rest indent

end

/-- Association-list lookup over the ordered dicts of this embedding
(first binding wins, as a Python dict has unique keys). -/
def lookupKey (k : String) : List (String × JsonValue) → Option JsonValue
  | [] => none
  | (k1, v) :: rest => if k1 = k then some v else lookupKey k rest

/-- Rendering of one `UrlMetadata` into the output JSON
(`utils.py` lines 88–94). -/
def urlMetadataToJson (m : UrlMetadata) : JsonValue :=
  JsonValue.obj
    [("retrieved_url", JsonValue.str m.retrieved_url),
     ("url_retrieval_status", JsonValue.str m.url_retrieval_status)]

/-- The first two steps of the `output` dict built by `format_output` in its
JSON branch (`utils.py` lines 82–94): `response_text` always, then
`url_context_metadata` when truthy (non-None and non-empty). -/
def buildOutputBase (result : QueryResult) : List (String × JsonValue) :=
  let base := [("response_text", JsonValue.str result.response_text)]
  match result.url_context_metadata with
  | some l =>
    if l = [] then base
    else base ++ [("url_context_metadata", JsonValue.arr (l.map urlMetadataToJson))]
  | none => base

/-- The full `output` dict of `format_output` (`utils.py` lines 82–98): the
base dict, then the `grounding_metadata` key, added exactly when `verbose`,
`search_enabled` and `result.grounding_metadata` are all truthy (an empty
dict is falsy in Python). -/
def buildOutput (result : QueryResult) (verbose : Bool) (search_enabled : Bool) :
    List (String × JsonValue) :=
  match verbose && search_enabled, result.grounding_metadata with
  | true, some g =>
    if g.isEmpty then buildOutputBase result
    else buildOutputBase result ++ [("grounding_metadata", JsonValue.obj g)]
  | _, _ => buildOutputBase result

/-- The formatting utility `format_output` (`utils.py` lines 51–100):
plain-text passthrough when `text_only`, otherwise the JSON document built
from `buildOutput`, serialized with 2-space indentation. -/
def format_output (result : QueryResult) (text_only : Bool) (verbose : Bool)
    (search_enabled : Bool) : String :=
  if text_only then result.response_text
  else jsonSerialize (JsonValue.obj (buildOutput result verbose search_enabled)) 0

/-- The `ValueError` message of `validate_prompt` (`utils.py` lines 124–130). -/
def validatePromptMessage : String :=
  "Prompt cannot be empty.\n" ++
  "Provide a prompt:\n" ++
  "  gemini-url-context-tool query 'your prompt here'\n" ++
  "Or read from stdin:\n" ++
  "  echo 'your prompt' | gemini-url-context-tool query --stdin"

/-- The validation utility `validate_prompt` (`utils.py` lines 103–132):
raise `ValueError` when the prompt is `None`, empty or whitespace-only,
otherwise return the stripped prompt. -/
def validate_prompt : Option String → Except String String
  | none => Except.error validatePromptMessage
  | some s =>
    if s = "" || pyStrip s == "" then Except.error validatePromptMessage
    else Except.ok (pyStrip s)

/-- The stderr message printed when both the positional prompt and `--stdin`
are supplied (`query_commands.py` lines 110–116). -/
def bothPromptAndStdinMessage : String :=
  "Error: Cannot specify both PROMPT argument and --stdin flag.\n" ++
  "Choose one:\n" ++
  "  gemini-url-context-tool query 'your prompt'\n" ++
  "  echo 'your prompt' | gemini-url-context-tool query --stdin"

/-- The stderr message printed when neither a prompt argument nor `--stdin`
is supplied (`query_commands.py` lines 127–135). -/
def promptRequiredMessage : String :=
  "Error: PROMPT argument is required.\n" ++
  "Provide a prompt:\n" ++
  "  gemini-url-context-tool query 'your prompt here'\n" ++
  "Or read from stdin:\n" ++
  "  echo 'your prompt' | gemini-url-context-tool query --stdin\n" ++
  "For help:\n" ++
  "  gemini-url-context-tool query --help"

/-- Outcome of the `query` subcommand's prompt-resolution phase:
`errorExit msg` models printing `msg` to the error stream followed by
`sys.exit(1)` with no query attempted; `invokeQuery p es v` models reaching
the `core_query(prompt=p, enable_search=es, verbose=v)` call (the only
point at which a network request can happen). -/
inductive CmdAction where
  | errorExit : String → CmdAction
  | invokeQuery : String → Bool → Bool → CmdAction
deriving DecidableEq

/-- Python truthiness of the optional `prompt` argument (click passes `None`
when the positional argument is not given, and the literal string when it
is, so an explicitly supplied empty string is falsy). -/
def pyTruthyOptStr : Option String → Bool
  | none => false
  | some s => s != ""

/-- The prompt-resolution control flow of the `query` subcommand
(`query_commands.py` lines 108–157): mutual-exclusion check, stdin reading
(whose outcome is passed in as `stdinRead`, modelling `read_stdin()`),
missing-prompt check, then the core-client invocation. -/
def queryCommand (prompt : Option String) (stdin : Bool)
    (stdinRead : Except String String) (no_search_tool : Bool) (verbose : Bool) :
    CmdAction :=
  if stdin && pyTruthyOptStr prompt then
    CmdAction.errorExit bothPromptAndStdinMessage
  else if stdin then
    match stdinRead with
    | Except.ok p => CmdAction.invokeQuery p (!no_search_tool) verbose
    | Except.error e => CmdAction.errorExit ("Error: " ++ e)
  else
    match prompt with
    | some p =>
      if p = "" then CmdAction.errorExit promptRequiredMessage
      else CmdAction.invokeQuery p (!no_search_tool) verbose
    | none => CmdAction.errorExit promptRequiredMessage

/-- Substring containment used to state that an error message carries a
required phrase. -/
def strContains (s sub : String) : Prop :=
  ∃ pre post, s = pre ++ sub ++ post

theorem dropWhile_append_of_all (p : Char → Bool) (a b : List Char)
    (h : ∀ c ∈ a, p c = true) :
    (a ++ b).dropWhile p = b.dropWhile p := by
  induction a with
  | nil => rfl
  | cons x xs ih =>
    have hx : p x = true := h x (List.mem_cons_self x xs)
    simp only [List.cons_append, List.dropWhile_cons, hx, if_true]
    exact ih (fun c hc => h c (List.mem_cons_of_mem x hc))

theorem dropWhile_of_all_false (p : Char → Bool) (l : List Char)
    (h : ∀ c ∈ l, p c = false) :
    l.dropWhile p = l := by
  cases l with
  | nil => rfl
  | cons x xs =>
    have hx : p x = false := h x (List.mem_cons_self x xs)
    simp [List.dropWhile_cons, hx]

theorem pyStripList_surround (pre core post : List Char)
    (hpre : ∀ c ∈ pre, isPyWhitespace c = true)
    (hpost : ∀ c ∈ post, isPyWhitespace c = true)
    (hne : core ≠ [])
    (hcore : ∀ c ∈ core, isPyWhitespace c = false) :
    pyStripList (pre ++ core ++ post) = core := by
  obtain ⟨x, xs, rfl⟩ := List.exists_cons_of_ne_nil hne
  unfold pyStripList
  rw [List.append_assoc, dropWhile_append_of_all _ pre _ hpre]
  have h1 : ((x :: xs) ++ post).dropWhile isPyWhitespace = (x :: xs) ++ post := by
    have hx : isPyWhitespace x = false := hcore x (List.mem_cons_self x xs)
    simp [List.dropWhile_cons, hx]
  rw [h1, List.reverse_append,
    dropWhile_append_of_all _ post.reverse _
      (fun c hc => hpost c (List.mem_reverse.mp hc)),
    dropWhile_of_all_false _ _
      (fun c hc => hcore c (List.mem_reverse.mp hc)),
    List.reverse_reverse]

theorem string_mk_ne_empty {l : List Char} (h : l ≠ []) : String.mk l ≠ "" :=
  fun he => h (congrArg String.data he)

theorem dropWhile_eq_nil_of_all (p : Char → Bool) (l : List Char)
    (h : ∀ c ∈ l, p c = true) :
    l.dropWhile p = [] := by
  induction l with
  | nil => rfl
  | cons x xs ih =>
    have hx : p x = true := h x (List.mem_cons_self x xs)
    simp only [List.dropWhile_cons, hx, if_true]
    exact ih (fun c hc => h c (List.mem_cons_of_mem x hc))

theorem pyStrip_eq_empty_of_all_whitespace (s : String)
    (h : ∀ c ∈ s.toList, isPyWhitespace c = true) :
    pyStrip s = "" := by
  unfold pyStrip pyStripList
  rw [dropWhile_eq_nil_of_all _ _ h]
  rfl

theorem foldl_append_singleton {α β : Type} (f : α → β) (l : List α) (acc : List β) :
    l.foldl (fun a x => a ++ [f x]) acc = acc ++ l.map f := by
  induction l generalizing acc with
  | nil => simp
  | cons x xs ih => simp [List.foldl_cons, ih]

theorem lookupKey_append (k : String) (a b : List (String × JsonValue)) :
    lookupKey k (a ++ b) =
      (match lookupKey k a with
       | some v => some v
       | none => lookupKey k b) := by
  induction a with
  | nil => simp [lookupKey]
  | cons p rest ih =>
    obtain ⟨k1, v⟩ := p
    by_cases h : k1 = k
    · simp [lookupKey, h]
    · simp [lookupKey, h, ih]

/-- C8: for all strings consisting of a non-whitespace core surrounded by
arbitrary leading/trailing whitespace, `validate_prompt` succeeds and
returns exactly the non-whitespace core; and for every absent, empty or
whitespace-only input (universally: every string all of whose characters
are whitespace, every string whose stripped form is empty, and the absent
prompt) it fails with an error whose message contains
"Prompt cannot be empty". -/
theorem validate_prompt_trim_and_reject (pre core post : List Char)
    (hpre : ∀ c ∈ pre, isPyWhitespace c = true)
    (hpost : ∀ c ∈ post, isPyWhitespace c = true)
    (hne : core ≠ [])
    (hcore : ∀ c ∈ core, isPyWhitespace c = false) :
    validate_prompt (some (String.mk (pre ++ core ++ post))) =
      Except.ok (String.mk core) ∧
    validate_prompt none = Except.error validatePromptMessage ∧
    (∀ s : String, (∀ c ∈ s.toList, isPyWhitespace c = true) →
      validate_prompt (some s) = Except.error validatePromptMessage) ∧
    (∀ s : String, pyStrip s = "" →
      validate_prompt (some s) = Except.error validatePromptMessage) ∧
    strContains validatePromptMessage "Prompt cannot be empty" := by
  have hreject : ∀ s : String, pyStrip s = "" →
      validate_prompt (some s) = Except.error validatePromptMessage := by
    intro s hs
    simp [validate_prompt, hs]
  refine ⟨?_, rfl,
    fun s h0 => hreject s (pyStrip_eq_empty_of_all_whitespace s h0), hreject,
    ⟨"", ".\nProvide a prompt:\n  gemini-url-context-tool query 'your prompt here'\nOr read from stdin:\n  echo 'your prompt' | gemini-url-context-tool query --stdin", rfl⟩⟩
  have hlist : pyStrip (String.mk (pre ++ core ++ post)) = String.mk core := by
    unfold pyStrip
    rw [show (String.mk (pre ++ core ++ post)).toList = pre ++ core ++ post from rfl,
      pyStripList_surround pre core post hpre hpost hne hcore]
  have h1 : String.mk (pre ++ core ++ post) ≠ "" := by
    apply string_mk_ne_empty
    intro h0
    rcases List.append_eq_nil.mp h0 with ⟨h2, _⟩
    exact hne (List.append_eq_nil.mp h2).2
  have h2 : String.mk core ≠ "" := string_mk_ne_empty hne
  have h3 : String.mk (pre ++ (core ++ post)) ≠ "" := by
    rw [← List.append_assoc]
    exact h1
  simp only [validate_prompt]
  rw [hlist]
  simp [h3, h2]

theorem validate_prompt_trim_witness :
    validate_prompt (some (String.mk ([' '] ++ ['h', 'i'] ++ ['\t']))) =
      Except.ok (String.mk ['h', 'i']) :=
  (validate_prompt_trim_and_reject [' '] ['h', 'i'] ['\t']
    (by decide) (by decide) (by decide) (by decide)).1

/-- C5: a prompt that is absent, empty or whitespace-only makes
`GeminiClient.query` raise the invalid-input `ValueError` — whose message
explains both ways to supply a prompt (direct argument and piped stdin) —
and the request phase never reaches the network call (`sendRequest`). -/
theorem query_empty_prompt_rejected (prompt : Option String) (enable_search : Bool)
    (h : prompt = none ∨ ∃ s, prompt = some s ∧ pyStrip s = "") :
    GeminiClient.queryRequest prompt enable_search =
      QueryStep.raiseInvalidInput queryPromptEmptyMessage ∧
    strContains queryPromptEmptyMessage "Provide a prompt as argument" ∧
    strContains queryPromptEmptyMessage "Or read from stdin" ∧
    ∀ tools, GeminiClient.queryRequest prompt enable_search ≠ QueryStep.sendRequest tools := by
  have hmain : GeminiClient.queryRequest prompt enable_search =
      QueryStep.raiseInvalidInput queryPromptEmptyMessage := by
    rcases h with rfl | ⟨s, rfl, hs⟩
    · rfl
    · simp [GeminiClient.queryRequest, pyFalsyOptStr, hs]
  refine ⟨hmain,
    ⟨"Prompt cannot be empty.\n",
     ":\n  gemini-url-context-tool query 'your prompt here'\nOr read from stdin:\n  echo 'your prompt' | gemini-url-context-tool query --stdin", rfl⟩,
    ⟨"Prompt cannot be empty.\nProvide a prompt as argument:\n  gemini-url-context-tool query 'your prompt here'\n",
     ":\n  echo 'your prompt' | gemini-url-context-tool query --stdin", rfl⟩, ?_⟩
  intro tools hcontra
  rw [hmain] at hcontra
  exact QueryStep.noConfusion hcontra

theorem query_empty_prompt_witness :
    GeminiClient.queryRequest (some "   ") true =
      QueryStep.raiseInvalidInput queryPromptEmptyMessage :=
  (query_empty_prompt_rejected (some "   ") true (Or.inr ⟨"   ", rfl, by decide⟩)).1

/-- C6: constructing the client with no explicit credential and no
`GEMINI_API_KEY` in the environment fails with `MissingApiKeyError`, whose
message says how to set the environment variable and where to obtain a key;
construction never succeeds (so no network client is created). -/
theorem client_init_missing_key :
    GeminiClient.init none none =
      Except.error (ClientError.missingApiKey missingApiKeyMessage) ∧
    strContains missingApiKeyMessage "export GEMINI_API_KEY" ∧
    strContains missingApiKeyMessage "https://aistudio.google.com/app/apikey" ∧
    ∀ st : GeminiClientState, GeminiClient.init none none ≠ Except.ok st := by
  refine ⟨rfl,
    ⟨"GEMINI_API_KEY environment variable is required.\nSet it with: ",
     "='your-api-key'\nGet an API key from: https://aistudio.google.com/app/apikey", rfl⟩,
    ⟨"GEMINI_API_KEY environment variable is required.\nSet it with: export GEMINI_API_KEY='your-api-key'\nGet an API key from: ",
     "", rfl⟩, ?_⟩
  intro st h
  simp [GeminiClient.init] at h

/-- C10: an explicitly supplied empty-string credential is falsy, so when
`GEMINI_API_KEY` is unset or empty the construction fails with
`MissingApiKeyError` instead of binding the client to an empty credential. -/
theorem client_init_empty_key (env : Option String)
    (h : env = none ∨ env = some "") :
    GeminiClient.init (some "") env =
      Except.error (ClientError.missingApiKey missingApiKeyMessage) := by
  rcases h with rfl | rfl <;> rfl

theorem client_init_empty_key_witness :
    GeminiClient.init (some "") none =
      Except.error (ClientError.missingApiKey missingApiKeyMessage) :=
  client_init_empty_key none (Or.inl rfl)

theorem lookupKey_grounding_base (result : QueryResult) :
    lookupKey "grounding_metadata" (buildOutputBase result) = none := by
  have h1 : ("response_text" : String) ≠ "grounding_metadata" := by decide
  have h2 : ("url_context_metadata" : String) ≠ "grounding_metadata" := by decide
  unfold buildOutputBase
  rcases result.url_context_metadata with _ | l
  · simp [lookupKey, h1]
  · by_cases hl : l = [] <;> simp [hl, lookupKey, h1, h2]

theorem buildOutput_grounding_cases (result : QueryResult) (v s : Bool) :
    lookupKey "grounding_metadata" (buildOutput result v s) =
      (match v && s, result.grounding_metadata with
       | true, some g => if g.isEmpty then none else some (JsonValue.obj g)
       | _, _ => none) := by
  unfold buildOutput
  cases hvs : v && s
  · simp [lookupKey_grounding_base]
  · rcases hg : result.grounding_metadata with _ | g
    · simp [lookupKey_grounding_base]
    · by_cases hge : g.isEmpty
      · simp [hge, lookupKey_grounding_base]
      · simp only [hge, if_false, Bool.false_eq_true]
        rw [lookupKey_append, lookupKey_grounding_base]
        simp [lookupKey, hge]

theorem normalizeEmptyDict_some {d g : List (String × JsonValue)}
    (h : normalizeEmptyDict d = some g) : g ≠ [] := by
  unfold normalizeEmptyDict at h
  by_cases hd : d.isEmpty
  · rw [if_pos hd] at h
    exact Option.noConfusion h
  · rw [if_neg hd] at h
    injection h with h
    subst h
    intro hnil
    exact hd (by simp [hnil])

theorem extractGroundingDict_ne_nil {gm : GroundingMetadata}
    {g : List (String × JsonValue)} (h : extractGroundingDict gm = some g) :
    g ≠ [] := by
  unfold extractGroundingDict at h
  exact normalizeEmptyDict_some h

/-- C1: grounding-chunk extraction — the list of emitted objects is the
chunk-wise image of the input list (so chunk order is preserved); a chunk
with a truthy nested web reference emits an object with `uri` and `title`
taken from that reference, each defaulting to the null value when the
reference lacks it; otherwise a chunk carrying a direct `uri` attribute
emits that `uri` with its optional `title` (default null); a chunk matching
neither shape emits the empty object. -/
theorem grounding_chunk_extraction (chunks : List GroundingChunk) :
    buildChunksList chunks = chunks.map chunkToDict ∧
    (∀ (c : GroundingChunk) (w : Web), c.web = some w →
      chunkToDict c =
        JsonValue.obj [("uri", optJson w.uri), ("title", optJson w.title)]) ∧
    (∀ (c : GroundingChunk) (u : String), c.web = none → c.uri = some u →
      chunkToDict c =
        JsonValue.obj [("uri", JsonValue.str u), ("title", optJson c.title)]) ∧
    (∀ c : GroundingChunk, c.web = none → c.uri = none →
      chunkToDict c = JsonValue.obj []) := by
  refine ⟨by simpa [buildChunksList] using foldl_append_singleton chunkToDict chunks [],
    ?_, ?_, ?_⟩
  · intro c w hw
    simp [chunkToDict, hw]
  · intro c u hw hu
    simp [chunkToDict, hw, hu]
  · intro c hw hu
    simp [chunkToDict, hw, hu]

theorem grounding_chunk_extraction_witness :
    chunkToDict ⟨some ⟨some "https://example.com", none⟩, none, none⟩ =
      JsonValue.obj
        [("uri", optJson (some "https://example.com")), ("title", optJson none)] :=
  (grounding_chunk_extraction []).2.1
    ⟨some ⟨some "https://example.com", none⟩, none, none⟩
    ⟨some "https://example.com", none⟩ rfl

/-- C2: URL-metadata parsing — when the first candidate's URL-context
substructure carries a non-empty entry list, each entry maps to a
`UrlMetadata` whose `retrieved_url` defaults to the empty string and whose
`url_retrieval_status` defaults to the literal "UNKNOWN" when absent, in
order; when the substructure or its entry list is absent or empty the
result stays absent; and the result is never an empty sequence. -/
theorem url_metadata_parse :
    (∀ (r : Response) (candidate : Candidate) (rest : List Candidate)
        (ucm : UrlContextMetadata) (entries : List UrlMetadataEntry),
      r.candidates = some (candidate :: rest) →
      candidate.url_context_metadata = some ucm →
      ucm.url_metadata = some entries →
      entries ≠ [] →
      extractUrlContextMetadata r = some (entries.map (fun e =>
        (⟨e.retrieved_url.getD "", e.url_retrieval_status.getD "UNKNOWN"⟩ : UrlMetadata)))) ∧
    (∀ (r : Response) (candidate : Candidate) (rest : List Candidate),
      r.candidates = some (candidate :: rest) →
      (candidate.url_context_metadata = none ∨
        ∃ ucm, candidate.url_context_metadata = some ucm ∧
          (ucm.url_metadata = none ∨ ucm.url_metadata = some [])) →
      extractUrlContextMetadata r = none) ∧
    (∀ r : Response, extractUrlContextMetadata r ≠ some ([] : List UrlMetadata)) := by
  refine ⟨?_, ?_, ?_⟩
  · intro r candidate rest ucm entries hr hucm hum hne
    obtain ⟨cands⟩ := r
    cases hr
    simp [extractUrlContextMetadata, hucm, hum, hne]
  · intro r candidate rest hr hcase
    obtain ⟨cands⟩ := r
    cases hr
    rcases hcase with hnone | ⟨ucm, hucm, hnil | hnil⟩
    · simp [extractUrlContextMetadata, hnone]
    · simp [extractUrlContextMetadata, hucm, hnil]
    · simp [extractUrlContextMetadata, hucm, hnil]
  · intro r h
    obtain ⟨cands⟩ := r
    rcases cands with _ | ⟨_ | ⟨candidate, rest⟩⟩
    · exact Option.noConfusion h
    · exact Option.noConfusion h
    · rcases hucm : candidate.url_context_metadata with _ | ucm
      · simp [extractUrlContextMetadata, hucm] at h
      · rcases hum : ucm.url_metadata with _ | entries
        · simp [extractUrlContextMetadata, hucm, hum] at h
        · by_cases he : entries = []
          · simp [extractUrlContextMetadata, hucm, hum, he] at h
          · simp only [extractUrlContextMetadata, hucm, hum, he, if_false,
              Option.some_inj] at h
            exact he (List.map_eq_nil_iff.mp h)

theorem url_metadata_parse_witness :
    extractUrlContextMetadata
      ⟨some [⟨none, some ⟨some [⟨some "https://example.com", none⟩]⟩, none⟩]⟩ =
      some [⟨"https://example.com", "UNKNOWN"⟩] := by
  have h := url_metadata_parse.1
    ⟨some [⟨none, some ⟨some [⟨some "https://example.com", none⟩]⟩, none⟩]⟩
    ⟨none, some ⟨some [⟨some "https://example.com", none⟩]⟩, none⟩ []
    ⟨some [⟨some "https://example.com", none⟩]⟩ [⟨some "https://example.com", none⟩]
    rfl rfl rfl (by simp)
  simpa using h

/-- C3: the parsed `grounding_metadata` of a `QueryResult`, when present, is
a non-empty map — it is normalized to absent when the three extractions
(queries, chunks, supports) all yield nothing — and consequently
`format_output` never emits an empty `grounding_metadata` object. -/
theorem grounding_metadata_never_empty :
    (∀ (r : Response) (enable_search verbose : Bool) (g : List (String × JsonValue)),
      (parseResponse r enable_search verbose).grounding_metadata = some g → g ≠ []) ∧
    (∀ gm : GroundingMetadata,
      gm.web_search_queries.getD [] = [] →
      gm.grounding_chunks.getD [] = [] →
      gm.grounding_supports.getD [] = [] →
      extractGroundingDict gm = none) ∧
    (∀ (result : QueryResult) (v s : Bool) (j : JsonValue),
      lookupKey "grounding_metadata" (buildOutput result v s) = some j →
      ∃ g, j = JsonValue.obj g ∧ g ≠ []) := by
  refine ⟨?_, ?_, ?_⟩
  · intro r es v g h
    simp only [parseResponse] at h
    split at h
    · obtain ⟨cands⟩ := r
      rcases cands with _ | ⟨_ | ⟨candidate, rest⟩⟩
      · exact Option.noConfusion h
      · exact Option.noConfusion h
      · rcases hgm : candidate.grounding_metadata with _ | gm
        · simp [extractGroundingMetadata, hgm] at h
        · simp only [extractGroundingMetadata, hgm] at h
          exact extractGroundingDict_ne_nil h
    · exact Option.noConfusion h
  · intro gm hq hc hs
    simp [extractGroundingDict, normalizeEmptyDict, hq, hc, hs]
  · intro result v s j h
    rw [buildOutput_grounding_cases] at h
    cases hvs : v && s
    · rw [hvs] at h
      exact Option.noConfusion h
    · rw [hvs] at h
      rcases hg : result.grounding_metadata with _ | g
      · rw [hg] at h
        exact Option.noConfusion h
      · rw [hg] at h
        by_cases hge : g.isEmpty
        · simp [hge] at h
        · simp only [hge, if_false, Bool.false_eq_true, Option.some_inj] at h
          exact ⟨g, h.symm, fun hnil => hge (by simp [hnil])⟩

theorem grounding_metadata_never_empty_witness :
    extractGroundingDict ⟨none, none, none⟩ = none :=
  grounding_metadata_never_empty.2.1 ⟨none, none, none⟩ rfl rfl rfl

/-- C4 (amended): with `text_only` false, the JSON document produced by
`format_output` contains the `grounding_metadata` key if and only if
`verbose` is true, `search_enabled` is true, and `result.grounding_metadata`
is non-absent AND non-empty (Python dict truthiness — see the
counterexample for an absent key despite a present-but-empty map); when
present it is rendered verbatim as the record produced by the core client. -/
theorem format_output_grounding_gate (result : QueryResult) (v s : Bool) :
    ((lookupKey "grounding_metadata" (buildOutput result v s)).isSome = true ↔
      (v = true ∧ s = true ∧
        ∃ g, result.grounding_metadata = some g ∧ g ≠ [])) ∧
    (∀ g, result.grounding_metadata = some g → g ≠ [] → v = true → s = true →
      lookupKey "grounding_metadata" (buildOutput result v s) =
        some (JsonValue.obj g)) ∧
    format_output result false v s =
      jsonSerialize (JsonValue.obj (buildOutput result v s)) 0 := by
  have hkey : ∀ g : List (String × JsonValue),
      result.grounding_metadata = some g → g ≠ [] → v = true → s = true →
      lookupKey "grounding_metadata" (buildOutput result v s) =
        some (JsonValue.obj g) := by
    intro g hg hne hv hs
    subst hv
    subst hs
    have hge : g.isEmpty = false := by
      cases g with
      | nil => exact absurd rfl hne
      | cons a l => rfl
    rw [buildOutput_grounding_cases, hg]
    simp [hge]
  refine ⟨?_, hkey, rfl⟩
  constructor
  · intro hsome
    rw [buildOutput_grounding_cases] at hsome
    cases hvs : v && s
    · rw [hvs] at hsome
      simp at hsome
    · rcases hg : result.grounding_metadata with _ | g
      · rw [hvs, hg] at hsome
        simp at hsome
      · rw [hvs, hg] at hsome
        by_cases hge : g.isEmpty
        · simp [hge] at hsome
        · rcases (by simpa using hvs : v = true ∧ s = true) with ⟨hv, hs⟩
          exact ⟨hv, hs, g, rfl, fun hnil => hge (by simp [hnil])⟩
  · rintro ⟨hv, hs, g, hg, hne⟩
    rw [hkey g hg hne hv hs]
    rfl

theorem format_output_grounding_gate_witness :
    lookupKey "grounding_metadata"
      (buildOutput
        ⟨"ok", none,
         some [("web_search_queries", JsonValue.arr [JsonValue.str "test query"])]⟩
        true true) =
      some (JsonValue.obj
        [("web_search_queries", JsonValue.arr [JsonValue.str "test query"])]) :=
  (format_output_grounding_gate
    ⟨"ok", none,
     some [("web_search_queries", JsonValue.arr [JsonValue.str "test query"])]⟩
    true true).2.1
    [("web_search_queries", JsonValue.arr [JsonValue.str "test query"])]
    rfl (by simp) rfl rfl

theorem format_output_grounding_gate_cex :
    (QueryResult.mk "" none (some [])).grounding_metadata.isSome = true ∧
    lookupKey "grounding_metadata"
      (buildOutput (QueryResult.mk "" none (some [])) true true) = none :=
  ⟨rfl, rfl⟩

/-- C7 (amended): when a non-empty positional prompt and the `--stdin` flag
are both supplied, the `query` subcommand prints the mutual-exclusion
message to the error stream and terminates with exit code 1 (the
`errorExit` outcome), attempting no query (the outcome is never
`invokeQuery`, so the core client is not called and no network activity
happens). The amendment restricts the claim to a non-empty positional
prompt: an explicitly supplied empty-string prompt is falsy in Python, so
the code skips the mutual-exclusion check and reads stdin instead (see the
counterexample). -/
theorem both_prompt_and_stdin_rejected (p : String)
    (stdinRead : Except String String) (no_search_tool verbose : Bool)
    (hp : p ≠ "") :
    queryCommand (some p) true stdinRead no_search_tool verbose =
      CmdAction.errorExit bothPromptAndStdinMessage ∧
    strContains bothPromptAndStdinMessage
      "Cannot specify both PROMPT argument and --stdin flag" ∧
    ∀ q es vb, queryCommand (some p) true stdinRead no_search_tool verbose ≠
      CmdAction.invokeQuery q es vb := by
  have hmain : queryCommand (some p) true stdinRead no_search_tool verbose =
      CmdAction.errorExit bothPromptAndStdinMessage := by
    simp [queryCommand, pyTruthyOptStr, hp]
  refine ⟨hmain,
    ⟨"Error: ",
     ".\nChoose one:\n  gemini-url-context-tool query 'your prompt'\n  echo 'your prompt' | gemini-url-context-tool query --stdin",
     rfl⟩, ?_⟩
  intro q es vb hcontra
  rw [hmain] at hcontra
  exact CmdAction.noConfusion hcontra

theorem both_prompt_and_stdin_witness :
    queryCommand (some "hello") true (Except.ok "ignored") false false =
      CmdAction.errorExit bothPromptAndStdinMessage :=
  (both_prompt_and_stdin_rejected "hello" (Except.ok "ignored") false false
    (by decide)).1

theorem both_prompt_and_stdin_cex :
    queryCommand (some "") true (Except.ok "hello") false false =
      CmdAction.invokeQuery "hello" true false :=
  rfl

/-- C9: `format_output` is total in this embedding — it returns a string for
every result and flag combination, modelling that the Python operation
performs no I/O and never raises under its input contract — and with
`text_only` true it returns exactly `result.response_text`, nothing
appended. -/
theorem format_output_total_and_text_passthrough (result : QueryResult) (v s : Bool) :
    format_output result true v s = result.response_text ∧
    ∀ t : Bool, ∃ out : String, format_output result t v s = out :=
  ⟨rfl, fun t => ⟨format_output result t v s, rfl⟩⟩

end GeminiTool
